import Mathlib

/-!
Verification of the PC-Resources-Monitor program (`pc_monitor.py`) against
its natural-language specification.

The Python source is shallowly embedded below.  Numeric quantities are
modelled over `ℚ`: Python float division on the inputs that matter here
(powers of two, small integers, one-decimal percentages) is exact, so exact
rational division is a faithful model — with one known exception, the
first division of an integer byte count within 1024 of `1024^6`, whose
53-bit rounding can flip the string-vs-None outcome of `get_size`; no
theorem below claims anything inside that window (see `get_size_loop`'s
doc comment).  Python string formatting `:.2f` is
modelled by `format2` (round-half-to-even, as CPython performs; no input in
this development hits a tie).  A Python function that can fall off the end
of its body returns `Option` (`none` = Python `None`), and interpolating
such a value into an f-string renders the text `"None"` (`pyStr`).

Output is modelled as a list of emission events (`Emit`): a bare
`print(...)` reaches only the console, a bare `logging.info(...)` only the
log file, and the helper `print_log` both.  The timestamp/level prefix the
logging configuration adds to log lines is rendering glue outside the
modelled core.  OS readings are an explicit `Env`; the readings the
constructor takes are copied into the `ResourceMonitor`, while the psutil
calls the domain methods make at query time (`psutil.cpu_count`,
`psutil.cpu_percent`, `psutil.disk_usage`) read the `Env` passed to the
method, which mirrors the source faithfully.
-/

/-- Floor of a rational, computably: `num.fdiv den` (the denominator is
positive, so `Int.fdiv` is the mathematical floor). -/
def qfloor (q : ℚ) : ℤ := Int.fdiv q.num q.den

/-- Round a rational to the nearest integer, ties to even — the rounding
CPython's fixed-point float formatting performs. -/
def rhe (q : ℚ) : ℤ :=
  let f := qfloor q
  let frac := q - (f : ℚ)
  if frac < 1/2 then f
  else if 1/2 < frac then f + 1
  else if f % 2 = 0 then f else f + 1

/-- Two-digit zero padding for the fractional part of a fixed-point render. -/
def pad2 (n : ℕ) : String := if n < 10 then "0" ++ toString n else toString n

/-- Python f-string directive `:.2f`: fixed-point rendering with exactly two
digits after the decimal point. -/
def format2 (q : ℚ) : String :=
  let n := rhe (q * 100)
  let m := n.natAbs
  (if n < 0 then "-" else "") ++ toString (m / 100) ++ "." ++ pad2 (m % 100)

/-- Python `str()` of the one-decimal floats psutil reports for percentages
(`round(x, 1)` values): integer part, a dot, one digit.  CPython prints the
shortest round-tripping decimal, which for such values is exactly this. -/
def pyFloat (q : ℚ) : String :=
  let n := rhe (q * 10)
  let m := n.natAbs
  (if n < 0 then "-" else "") ++ toString (m / 10) ++ "." ++ toString (m % 10)

/-- Interpolation of a possibly-`None` Python string value into an
f-string: `None` renders as the text `"None"`. -/
def pyStr : Option String → String
  | some s => s
  | none => "None"

/-- The unit symbols of `get_size`, in the source's order. -/
def size_units : List String := ["", "K", "M", "G", "T", "P"]

/-- `factor = 1024` in `get_size`. -/
def factor : ℚ := 1024

/-- The `for unit in [...]` loop of `get_size`: at each unit, if
`bytes < factor` return the formatted value, else divide by `factor` and
continue.  Falling off the end of the list is Python's implicit
`return None`.

Division is modelled exactly over `ℚ`.  In CPython the divisions are float
divisions; for an integer input the only inexact operation is the first
`bytes /= 1024` (an int/int division rounded to 53 bits — every later
division by `1024 = 2^10` merely decrements the exponent and is exact).
That rounding can flip the string-vs-None outcome only for integer inputs
in `[1024^6 - 64, 1024^6)`, where the quotient rounds up to exactly
`2^50` and the final `< 1024` guard fails, so real `get_size` returns
`None` there while exact division would return a "P" string.  The
theorems below therefore claim the string/None outcome only outside the
window `[1024^6 - 1024, 1024^6)`, on which model and program agree. -/
def get_size_loop : List String → ℚ → String → Option String
  | [], _, _ => none
  | unit :: rest, bytes, suffix =>
    if bytes < factor then some (format2 bytes ++ unit ++ suffix)
    else get_size_loop rest (bytes / factor) suffix

/-- `get_size(bytes, suffix='B')` from `pc_monitor.py`; every call site in
the program uses the default suffix `'B'`. -/
def get_size (bytes : ℚ) (suffix : String := "B") : Option String :=
  get_size_loop size_units bytes suffix

/-- `platform.uname()` — the six identity fields the program reads. -/
structure Uname where
  system : String
  node : String
  release : String
  version : String
  machine : String
  processor : String
deriving DecidableEq

/-- `psutil.cpu_freq()` result, field order as psutil's `scpufreq`
named tuple; the program reads `max`, `min` and `current`. -/
structure CpuFreq where
  current : ℚ
  min : ℚ
  max : ℚ
deriving DecidableEq

/-- `psutil.swap_memory()` result — psutil's `sswap` named tuple with its
six fields (the program reads `total`, `free`, `used`, `percent`). -/
structure SwapStats where
  total : ℕ
  used : ℕ
  free : ℕ
  percent : ℚ
  sin : ℕ
  sout : ℕ
deriving DecidableEq

/-- `psutil.virtual_memory()` result restricted to the fields the program
reads (`total`, `available`, `used`, `percent`). -/
structure VirtualMem where
  total : ℕ
  available : ℕ
  used : ℕ
  percent : ℚ
deriving DecidableEq

/-- One entry of `psutil.disk_partitions()` restricted to the fields the
program reads (`device`, `mountpoint`, `fstype`). -/
structure Partition where
  device : String
  mountpoint : String
  fstype : String
deriving DecidableEq

/-- `psutil.disk_usage(path)` result on success. -/
structure DiskUsage where
  total : ℕ
  used : ℕ
  free : ℕ
  percent : ℚ
deriving DecidableEq

/-- Outcome of a `psutil.disk_usage(path)` call: either the usage record,
or the `PermissionError` the source catches. -/
inductive DiskUsageResult
  | ok (u : DiskUsage)
  | permissionError
deriving DecidableEq

/-- One entry of an interface's address list (`psutil.net_if_addrs()`).
`family` is modelled as its `str()` because the source compares
`str(address.family)` with string literals.  `netmask`/`broadcast` may be
Python `None`; a `None` there renders as `"None"`, subsumed by `String`. -/
structure NetAddress where
  family : String
  address : String
  netmask : String
  broadcast : String
deriving DecidableEq

/-- `psutil.net_io_counters()` restricted to the fields the program reads. -/
structure NetIOCounters where
  bytes_sent : ℕ
  bytes_recv : ℕ
deriving DecidableEq

/-- The host OS as observable by the program.  The first seven fields are
read once in `ResourceMonitor.__init__`; the remaining fields model the
psutil calls the domain methods make live at query time
(`psutil.cpu_count`, `psutil.cpu_percent(percpu=True, interval=1)`,
`psutil.cpu_percent()`, `psutil.disk_usage`). -/
structure Env where
  uname : Uname
  cpufreq : Option CpuFreq
  swap : SwapStats
  svmem : VirtualMem
  partitions : List Partition
  if_addrs : List (String × List NetAddress)
  net_io : NetIOCounters
  cpu_count_physical : ℕ
  cpu_count_logical : ℕ
  cpu_percent_percpu : List ℚ
  cpu_percent_total : ℚ
  disk_usage : String → DiskUsageResult

/-- The state a `ResourceMonitor` instance holds: exactly the seven
attributes `__init__` assigns.  `cpufreq` is an `Option` because
`psutil.cpu_freq()` returns `None` when no frequency reading is
available. -/
structure ResourceMonitor where
  uname : Uname
  cpufreq : Option CpuFreq
  swap : SwapStats
  svmem : VirtualMem
  partitions : List Partition
  if_addrs : List (String × List NetAddress)
  net_io : NetIOCounters

/-- `ResourceMonitor.__init__`: copy the seven OS readings into the
instance.  It is total: a `None` from `psutil.cpu_freq()` is stored as-is
and construction succeeds. -/
def ResourceMonitor.init (e : Env) : ResourceMonitor :=
  { uname := e.uname
    cpufreq := e.cpufreq
    swap := e.swap
    svmem := e.svmem
    partitions := e.partitions
    if_addrs := e.if_addrs
    net_io := e.net_io }

/-- One emission event.  `print` is a bare `print(...)` (console only),
`log` a bare `logging.info(...)` (log file only), `printLog` the
`print_log` helper (both sinks). -/
inductive Emit
  | print (s : String)
  | log (s : String)
  | printLog (s : String)
deriving DecidableEq

/-- `print_log(text)`: `logging.info(text)` then `print(text)` — one event
reaching both sinks with the same text. -/
def print_log (text : String) : List Emit := [Emit.printLog text]

/-- The sequence of lines the console receives from a run of emissions. -/
def consoleOf : List Emit → List String
  | [] => []
  | Emit.print s :: r => s :: consoleOf r
  | Emit.log _ :: r => consoleOf r
  | Emit.printLog s :: r => s :: consoleOf r

/-- The sequence of messages appended to the log file (without the
timestamp/level prefix the logging configuration adds). -/
def logOf : List Emit → List String
  | [] => []
  | Emit.print _ :: r => logOf r
  | Emit.log s :: r => s :: logOf r
  | Emit.printLog s :: r => s :: logOf r

/-- `ResourceMonitor.system_info`. -/
def system_info (m : ResourceMonitor) : List Emit :=
  [Emit.print "========== Информация о системе ==========",
   Emit.log "Информация о системе"] ++
  print_log ("Система: " ++ m.uname.system) ++
  print_log ("Имя сетевого узла: " ++ m.uname.node) ++
  print_log ("Выпуск: " ++ m.uname.release) ++
  print_log ("Версия: " ++ m.uname.version) ++
  print_log ("Машина: " ++ m.uname.machine) ++
  print_log ("Процессор: " ++ m.uname.processor)

/-- The `for i, percentage in enumerate(psutil.cpu_percent(percpu=True,
interval=1))` loop of `proc_info`. -/
def percpu_lines (ps : List ℚ) : List Emit :=
  (List.enum ps).map (fun ip =>
    Emit.printLog ("Загруженность ядра " ++ toString ip.1 ++ ": " ++ pyFloat ip.2 ++ "%"))

/-- `ResourceMonitor.proc_info`.  Returns the emissions produced together
with `some msg` when the method raises (evaluating `self.cpufreq.max` on a
`None` value raises `AttributeError`; the lines emitted before that point
have already reached the sinks). -/
def proc_info (m : ResourceMonitor) (e : Env) : List Emit × Option String :=
  let pre :=
    [Emit.print "========== Информация о процессоре ==========",
     Emit.log "Информация о процессоре"] ++
    print_log ("Физические ядра: " ++ toString e.cpu_count_physical) ++
    print_log ("Количество ядер: " ++ toString e.cpu_count_logical)
  match m.cpufreq with
  | none =>
    (pre, some "AttributeError: NoneType object has no attribute max")
  | some f =>
    (pre ++
     print_log ("Маскимальная частота процессора: " ++ format2 f.max ++ "МГц") ++
     print_log ("Минимальная частота процессора: " ++ format2 f.min ++ "МГц") ++
     print_log ("Текущая частота процессора: " ++ format2 f.current ++ "МГц") ++
     percpu_lines e.cpu_percent_percpu ++
     print_log ("Общая загруженность процессора: " ++ pyFloat e.cpu_percent_total ++ "%"),
     none)

/-- Python truthiness of `self.swap`: `psutil.swap_memory()` returns the
`sswap` named tuple, a named tuple is a tuple, and `bool(tuple)` is
`len(tuple) > 0`; `sswap` has six fields, so `if self.swap:` is true no
matter what the field values are. -/
def swap_truthy (_swap : SwapStats) : Bool := true

/-- `ResourceMonitor.ram_info`. -/
def ram_info (m : ResourceMonitor) : List Emit :=
  [Emit.print "========== Информация об ОЗУ ==========",
   Emit.log "Информация об ОЗУ"] ++
  print_log ("Объем ОЗУ: " ++ pyStr (get_size m.svmem.total)) ++
  print_log ("Доступно ОЗУ: " ++ pyStr (get_size m.svmem.available)) ++
  print_log ("Используется ОЗУ: " ++ pyStr (get_size m.svmem.used)) ++
  print_log ("Процент ОЗУ: " ++ pyStr (get_size m.svmem.percent)) ++
  (if swap_truthy m.swap then
    [Emit.print "===== Информация о памяти подкачки =====",
     Emit.log "Информация о памяти подкачки"] ++
    print_log ("Объем памяти подкачки: " ++ pyStr (get_size m.swap.total)) ++
    print_log ("Свободно памяти подкачки: " ++ pyStr (get_size m.swap.free)) ++
    print_log ("Используется памяти подкачки: " ++ pyStr (get_size m.swap.used)) ++
    print_log ("Процент памяти подкачки: " ++ pyFloat m.swap.percent ++ "%")
  else [])

/-- The body of `disk_info`'s `for partition in self.partitions` loop for
one partition: identity header and filesystem line, then the usage lines —
unless `psutil.disk_usage` raises `PermissionError`, in which case
`continue` skips exactly the usage lines. -/
def partition_emits (e : Env) (p : Partition) : List Emit :=
  [Emit.print ("===== Информация о разделе диска: " ++ p.device ++ " ====="),
   Emit.log ("Информация о разделе диска: " ++ p.device)] ++
  print_log ("Файловая система раздела диска " ++ p.device ++ ": " ++ p.fstype) ++
  match e.disk_usage p.mountpoint with
  | DiskUsageResult.permissionError => []
  | DiskUsageResult.ok u =>
    print_log ("Общий обьем раздела диска " ++ p.device ++ ": " ++ pyStr (get_size u.total)) ++
    print_log ("Используемый обьем раздела диска " ++ p.device ++ ": " ++ pyStr (get_size u.used)) ++
    print_log ("Свободный обьем раздела диска " ++ p.device ++ ": " ++ pyStr (get_size u.free)) ++
    print_log ("Процент объема раздела диска " ++ p.device ++ ": " ++ pyStr (get_size u.percent))

/-- `ResourceMonitor.disk_info`: the section header, then the per-partition
loop over the frozen partition list (usage queried live from `e`). -/
def disk_info (m : ResourceMonitor) (e : Env) : List Emit :=
  [Emit.print "========== Информация о дисках ==========",
   Emit.log "Информация о дисках"] ++
  m.partitions.flatMap (partition_emits e)

/-- The per-address body of `network_info`'s inner loop after the header:
the three-way branch on `str(address.family)`.  The `AF_PACKET` and `else`
branches emit letter-for-letter the same four labels. -/
def address_lines (name : String) (address : NetAddress) : List Emit :=
  if address.family = "AddressFamily.AF_INET" then
    print_log ("Тип интерфейса сети " ++ name ++ ": " ++ address.family) ++
    print_log ("IP интерфейса сети " ++ name ++ ": " ++ address.address) ++
    print_log ("Сетевая маска интерфейса сети " ++ name ++ ": " ++ address.netmask) ++
    print_log ("Широковещательный IP-адрес интерфейса сети " ++ name ++ ": " ++ address.broadcast)
  else if address.family = "AddressFamily.AF_PACKET" then
    print_log ("Тип интерфейса сети " ++ name ++ ": " ++ address.family) ++
    print_log ("MAC-адрес интерфейса сети " ++ name ++ ": " ++ address.address) ++
    print_log ("Сетевая маска интерфейса сети " ++ name ++ ": " ++ address.netmask) ++
    print_log ("Широковещательный IP-адрес интерфейса сети " ++ name ++ ": " ++ address.broadcast)
  else
    print_log ("Тип интерфейса сети " ++ name ++ ": " ++ address.family) ++
    print_log ("MAC-адрес интерфейса сети " ++ name ++ ": " ++ address.address) ++
    print_log ("Сетевая маска интерфейса сети " ++ name ++ ": " ++ address.netmask) ++
    print_log ("Широковещательный IP-адрес интерфейса сети " ++ name ++ ": " ++ address.broadcast)

/-- One interface's part of `network_info`: the `for address in
interface_addresses` loop, whose body starts with the per-interface header
(printed and logged inside the inner loop, hence once per address). -/
def interface_section (name : String) (addrs : List NetAddress) : List Emit :=
  addrs.flatMap (fun address =>
    [Emit.print ("===== Информация о интерфейсе сети: " ++ name ++ " ====="),
     Emit.log ("Информация о интерфейсе сети: " ++ name)] ++
    address_lines name address)

/-- `ResourceMonitor.network_info`. -/
def network_info (m : ResourceMonitor) : List Emit :=
  [Emit.print "========== Информация о сети ==========",
   Emit.log "Информация о сети"] ++
  m.if_addrs.flatMap (fun pr => interface_section pr.1 pr.2) ++
  print_log ("Общее количество отправленных байтов: " ++ pyStr (get_size m.net_io.bytes_sent)) ++
  print_log ("Общее количество полученных байтов: " ++ pyStr (get_size m.net_io.bytes_recv))

/-! Concrete host fixtures used by witnesses and counterexamples. -/

/-- A concrete identity reading. -/
def uname_base : Uname :=
  ⟨"Linux", "host", "6.1.0", "#1 SMP", "x86_64", "x86_64"⟩

/-- A concrete frequency reading (current, min, max in MHz). -/
def freq_base : CpuFreq := ⟨2000, 800, 3600⟩

/-- A concrete nonzero swap reading. -/
def swap_base : SwapStats := ⟨2048, 1024, 1024, 50, 0, 0⟩

/-- An all-zero swap reading, as psutil reports on a host without swap. -/
def swap_zero : SwapStats := ⟨0, 0, 0, 0, 0, 0⟩

/-- A concrete primary-memory reading. -/
def vm_base : VirtualMem := ⟨1024, 512, 512, 50⟩

/-- A readable partition. -/
def part_sda1 : Partition := ⟨"/dev/sda1", "/", "ext4"⟩

/-- A partition whose usage query is denied. -/
def part_sdb1 : Partition := ⟨"/dev/sdb1", "/data", "ext4"⟩

/-- The usage reading of the readable partition. -/
def usage_sda : DiskUsage := ⟨1024, 512, 512, 50⟩

/-- An IPv4 address entry. -/
def addr_inet : NetAddress :=
  ⟨"AddressFamily.AF_INET", "192.168.1.10", "255.255.255.0", "192.168.1.255"⟩

/-- A link-layer address entry (netmask/broadcast are Python None). -/
def addr_packet : NetAddress :=
  ⟨"AddressFamily.AF_PACKET", "aa:bb:cc:dd:ee:ff", "None", "None"⟩

/-- An address entry of a family that is neither AF_INET nor AF_PACKET,
with the same address/netmask/broadcast values as `addr_packet`. -/
def addr_other : NetAddress :=
  ⟨"AddressFamily.AF_INET6", "aa:bb:cc:dd:ee:ff", "None", "None"⟩

/-- The base host environment. -/
def env_base : Env :=
  { uname := uname_base
    cpufreq := some freq_base
    swap := swap_base
    svmem := vm_base
    partitions := [part_sda1, part_sdb1]
    if_addrs := [("eth0", [addr_inet])]
    net_io := ⟨100, 200⟩
    cpu_count_physical := 2
    cpu_count_logical := 4
    cpu_percent_percpu := [10, 20]
    cpu_percent_total := 15
    disk_usage := fun mp =>
      if mp = "/data" then DiskUsageResult.permissionError
      else DiskUsageResult.ok usage_sda }

/-- The collector built from the base environment. -/
def m_base : ResourceMonitor := ResourceMonitor.init env_base

/-- The base host with an all-zero swap reading. -/
def env_zero_swap : Env := { env_base with swap := swap_zero }

/-- The collector built on the zero-swap host. -/
def m_zero_swap : ResourceMonitor := ResourceMonitor.init env_zero_swap

/-- The base host after its physical core count changed (the load samples
are identical to `env_base`). -/
def env_cpu_alt : Env := { env_base with cpu_count_physical := 8 }

/-- The base host after its memory reading changed (core counts, load
samples and disk usage identical to `env_base`). -/
def env_mem_alt : Env := { env_base with svmem := ⟨2048, 1024, 1024, 50⟩ }

/-- The base host on a platform without a CPU frequency sensor:
`psutil.cpu_freq()` returns `None`. -/
def env_nofreq : Env := { env_base with cpufreq := none }

/-! Helper lemmas about the `get_size` loop. -/

/-- C1 counterexample: with the default suffix "B", `get_size(1024)`
renders the unit symbol immediately followed by the suffix — `"1.00KB"`,
not `"1.00K"` as the claim's test vector states. -/
theorem C1_counterexample :
    get_size 1024 = some "1.00KB" ∧ get_size 1024 ≠ some "1.00K" := by
  have h : get_size 1024 = some "1.00KB" := by
    norm_num [get_size, get_size_loop, size_units, factor, format2, rhe, qfloor, pad2]
    rfl
  refine ⟨h, ?_⟩
  rw [h]
  decide

/-- C1 amended: the size formatter's exact test vectors with the default
suffix "B" are `get_size(0) = "0.00B"`, `get_size(1023) = "1023.00B"`,
`get_size(1024) = "1.00KB"` and `get_size(1024*1024) = "1.00MB"` — the
unit symbol is concatenated with the suffix. -/
theorem C1_test_vectors :
    get_size 0 = some "0.00B" ∧ get_size 1023 = some "1023.00B" ∧
    get_size 1024 = some "1.00KB" ∧ get_size (1024 * 1024) = some "1.00MB" := by
  refine ⟨?_, ?_, ?_, ?_⟩ <;>
    (norm_num [get_size, get_size_loop, size_units, factor, format2, rhe, qfloor, pad2] <;>
      rfl)

/-- C3: code bug.  `if self.swap:` tests the truthiness of psutil's
six-field `sswap` named tuple, which is always true, so on a host whose
swap reading is all zeros the swap section is still emitted — header and
all four fields, as zeros — where the claim (and the guard's evident
intent) says the section is skipped entirely. -/
theorem C3_zero_swap_section_emitted :
    m_zero_swap.swap.total = 0 ∧
    Emit.log "Информация о памяти подкачки" ∈ ram_info m_zero_swap ∧
    Emit.printLog "Объем памяти подкачки: 0.00B" ∈ ram_info m_zero_swap ∧
    Emit.printLog "Свободно памяти подкачки: 0.00B" ∈ ram_info m_zero_swap ∧
    Emit.printLog "Используется памяти подкачки: 0.00B" ∈ ram_info m_zero_swap ∧
    Emit.printLog "Процент памяти подкачки: 0.0%" ∈ ram_info m_zero_swap := by
  have h : ram_info m_zero_swap =
      [Emit.print "========== Информация об ОЗУ ==========",
       Emit.log "Информация об ОЗУ",
       Emit.printLog "Объем ОЗУ: 1.00KB",
       Emit.printLog "Доступно ОЗУ: 512.00B",
       Emit.printLog "Используется ОЗУ: 512.00B",
       Emit.printLog "Процент ОЗУ: 50.00B",
       Emit.print "===== Информация о памяти подкачки =====",
       Emit.log "Информация о памяти подкачки",
       Emit.printLog "Объем памяти подкачки: 0.00B",
       Emit.printLog "Свободно памяти подкачки: 0.00B",
       Emit.printLog "Используется памяти подкачки: 0.00B",
       Emit.printLog "Процент памяти подкачки: 0.0%"] := by
    norm_num [ram_info, m_zero_swap, env_zero_swap, env_base, swap_zero, vm_base,
      ResourceMonitor.init, swap_truthy, print_log, pyStr, pyFloat,
      get_size, get_size_loop, size_units, factor, format2, rhe, qfloor, pad2]
    decide
  refine ⟨rfl, ?_, ?_, ?_, ?_, ?_⟩ <;> rw [h] <;> decide

/-- C4: confirmed.  With the partition list split around a partition whose
usage query raises `PermissionError`, `disk_info` still emits that
partition's identity header and filesystem-type line, emits zero usage
lines for it, and processes every partition before and after it — the
domain never aborts. -/
theorem C4_permission_denied_partition (e : Env) (m : ResourceMonitor)
    (ps1 ps2 : List Partition) (p : Partition)
    (hparts : m.partitions = ps1 ++ p :: ps2)
    (hdenied : e.disk_usage p.mountpoint = DiskUsageResult.permissionError) :
    disk_info m e =
      [Emit.print "========== Информация о дисках ==========",
       Emit.log "Информация о дисках"] ++
      ps1.flatMap (partition_emits e) ++
      [Emit.print ("===== Информация о разделе диска: " ++ p.device ++ " ====="),
       Emit.log ("Информация о разделе диска: " ++ p.device),
       Emit.printLog ("Файловая система раздела диска " ++ p.device ++ ": " ++ p.fstype)] ++
      ps2.flatMap (partition_emits e) := by
  rw [disk_info, hparts, List.flatMap_append, List.flatMap_cons]
  have hp : partition_emits e p =
      [Emit.print ("===== Информация о разделе диска: " ++ p.device ++ " ====="),
       Emit.log ("Информация о разделе диска: " ++ p.device),
       Emit.printLog ("Файловая система раздела диска " ++ p.device ++ ": " ++ p.fstype)] := by
    simp [partition_emits, hdenied, print_log]
  rw [hp]
  simp

/-- C4 witness: the theorem applied on the base host, whose second
partition `/dev/sdb1` is permission-denied. -/
theorem C4_witness :
    disk_info m_base env_base =
      [Emit.print "========== Информация о дисках ==========",
       Emit.log "Информация о дисках"] ++
      [part_sda1].flatMap (partition_emits env_base) ++
      [Emit.print ("===== Информация о разделе диска: " ++ part_sdb1.device ++ " ====="),
       Emit.log ("Информация о разделе диска: " ++ part_sdb1.device),
       Emit.printLog ("Файловая система раздела диска " ++ part_sdb1.device ++ ": " ++ part_sdb1.fstype)] ++
      ([] : List Partition).flatMap (partition_emits env_base) :=
  C4_permission_denied_partition env_base m_base [part_sda1] [] part_sdb1 rfl rfl

/-- C5 counterexample: the collector unchanged, `proc_info` re-invoked
against a host whose physical core count changed — with the load samples
identical — yields different output: core counts are live queries, not
part of the frozen construction-time snapshot. -/
theorem C5_counterexample :
    env_cpu_alt.cpu_percent_percpu = env_base.cpu_percent_percpu ∧
    env_cpu_alt.cpu_percent_total = env_base.cpu_percent_total ∧
    (proc_info m_base env_cpu_alt).1 ≠ (proc_info m_base env_base).1 := by
  refine ⟨rfl, rfl, ?_⟩
  norm_num [proc_info, m_base, env_base, env_cpu_alt, freq_base, print_log, percpu_lines,
    pyFloat, format2, rhe, qfloor, pad2, ResourceMonitor.init]
  decide

/-- C5 amended: what is actually frozen.  `system_info`, `ram_info` and
`network_info` read only the collector (they take no environment), and by
this theorem `proc_info` reads the live environment only through the two
core counts and the two load samples, and `disk_info` only through the
usage query — so repeated invocations differ exactly when one of those
live readings (not just the CPU load) changed. -/
theorem C5_frozen_except_live_queries (m : ResourceMonitor) (e e' : Env)
    (h1 : e.cpu_count_physical = e'.cpu_count_physical)
    (h2 : e.cpu_count_logical = e'.cpu_count_logical)
    (h3 : e.cpu_percent_percpu = e'.cpu_percent_percpu)
    (h4 : e.cpu_percent_total = e'.cpu_percent_total)
    (h5 : ∀ mp, e.disk_usage mp = e'.disk_usage mp) :
    proc_info m e = proc_info m e' ∧ disk_info m e = disk_info m e' := by
  constructor
  · cases hm : m.cpufreq <;> simp [proc_info, hm, h1, h2, h3, h4]
  · have hpe : partition_emits e = partition_emits e' := by
      funext p
      simp [partition_emits, h5 p.mountpoint]
    simp [disk_info, hpe]

/-- C5 witness: the amended theorem applied with the base host and the base
host after a memory-reading change: the live readings agree, so both
domain methods emit identically. -/
theorem C5_witness :
    proc_info m_base env_base = proc_info m_base env_mem_alt ∧
    disk_info m_base env_base = disk_info m_base env_mem_alt :=
  C5_frozen_except_live_queries m_base env_base env_mem_alt rfl rfl rfl rfl
    (fun _ => rfl)

/-- C6: confirmed.  The primary-memory percent line and the disk-partition
percent line pipe the percentage through the byte formatter `get_size`,
while the swap percent line renders the raw number with a `%` suffix. -/
theorem C6_percent_rendering (m : ResourceMonitor) (e : Env) (p : Partition)
    (u : DiskUsage) (hu : e.disk_usage p.mountpoint = DiskUsageResult.ok u) :
    Emit.printLog ("Процент ОЗУ: " ++ pyStr (get_size m.svmem.percent)) ∈ ram_info m ∧
    Emit.printLog ("Процент памяти подкачки: " ++ pyFloat m.swap.percent ++ "%") ∈ ram_info m ∧
    Emit.printLog ("Процент объема раздела диска " ++ p.device ++ ": " ++ pyStr (get_size u.percent)) ∈ partition_emits e p := by
  refine ⟨?_, ?_, ?_⟩ <;> simp [ram_info, partition_emits, hu, swap_truthy, print_log]

/-- C6 witness: the theorem applied on the base host at its readable
partition. -/
theorem C6_witness :
    Emit.printLog ("Процент ОЗУ: " ++ pyStr (get_size m_base.svmem.percent)) ∈ ram_info m_base ∧
    Emit.printLog ("Процент памяти подкачки: " ++ pyFloat m_base.swap.percent ++ "%") ∈ ram_info m_base ∧
    Emit.printLog ("Процент объема раздела диска " ++ part_sda1.device ++ ": " ++ pyStr (get_size usage_sda.percent)) ∈ partition_emits env_base part_sda1 :=
  C6_percent_rendering m_base env_base part_sda1 usage_sda rfl

/-- C7 counterexample: an address of the "Other" class (here `AF_INET6`)
is rendered with letter-for-letter the same labels as a link-layer
`AF_PACKET` address — including the `MAC-адрес` label — so the three
classes are not each labeled by their own family; only the interpolated
family value on the type line differs. -/
theorem C7_counterexample :
    addr_packet.family ≠ addr_other.family ∧
    List.drop 1 (address_lines "eth0" addr_packet) =
      List.drop 1 (address_lines "eth0" addr_other) ∧
    (address_lines "eth0" addr_other)[1]? =
      some (Emit.printLog "MAC-адрес интерфейса сети eth0: aa:bb:cc:dd:ee:ff") := by
  decide

/-- C7 amended: `address_lines` always emits exactly four fields; the type
line always carries the raw family string; an `AF_INET` address gets the
distinct `IP` label on its address line, and every other family — the
link-layer class and the "Other" class alike — gets the `MAC-адрес`
label. -/
theorem C7_classification (name : String) (address : NetAddress) :
    (address_lines name address).length = 4 ∧
    (address_lines name address)[0]? =
      some (Emit.printLog ("Тип интерфейса сети " ++ name ++ ": " ++ address.family)) ∧
    (address.family = "AddressFamily.AF_INET" →
      (address_lines name address)[1]? =
        some (Emit.printLog ("IP интерфейса сети " ++ name ++ ": " ++ address.address))) ∧
    (address.family ≠ "AddressFamily.AF_INET" →
      (address_lines name address)[1]? =
        some (Emit.printLog ("MAC-адрес интерфейса сети " ++ name ++ ": " ++ address.address))) := by
  by_cases h1 : address.family = "AddressFamily.AF_INET"
  · simp [address_lines, h1, print_log]
  · by_cases h2 : address.family = "AddressFamily.AF_PACKET" <;>
      simp [address_lines, h1, h2, print_log]

/-- C7 witness: the amended theorem at the IPv4 fixture: four lines, type
line first, `IP` label on the address line. -/
theorem C7_witness :
    (address_lines "eth0" addr_inet).length = 4 ∧
    (address_lines "eth0" addr_inet)[1]? =
      some (Emit.printLog ("IP интерфейса сети " ++ "eth0" ++ ": " ++ addr_inet.address)) :=
  ⟨(C7_classification "eth0" addr_inet).1,
   (C7_classification "eth0" addr_inet).2.2.1 (by decide)⟩

/-- C8: code bug.  On a platform without a CPU frequency sensor
`psutil.cpu_freq()` returns `None`; construction indeed succeeds (the
first conjunct), but `proc_info` then evaluates `self.cpufreq.max` on
`None` and raises `AttributeError` — it does not omit the frequency lines
and continue as the claim requires.  The core-count lines emitted before
the crash are the only output of the method. -/
theorem C8_missing_freq_crash :
    (ResourceMonitor.init env_nofreq).cpufreq = none ∧
    (proc_info (ResourceMonitor.init env_nofreq) env_nofreq).2 =
      some "AttributeError: NoneType object has no attribute max" :=
  ⟨rfl, rfl⟩

/-- C9 counterexample: on the base host, the console stream and the log
stream of `system_info` differ — the section header reaches the console as
the `=`-framed title and the log as the bare title. -/
theorem C9_counterexample :
    consoleOf (system_info m_base) ≠ logOf (system_info m_base) := by
  decide

/-- `consoleOf` is an append homomorphism. -/
lemma consoleOf_append (l1 l2 : List Emit) :
    consoleOf (l1 ++ l2) = consoleOf l1 ++ consoleOf l2 := by
  induction l1 with
  | nil => rfl
  | cons x r ih => cases x <;> simp [consoleOf, ih]

/-- `logOf` is an append homomorphism. -/
lemma logOf_append (l1 l2 : List Emit) :
    logOf (l1 ++ l2) = logOf l1 ++ logOf l2 := by
  induction l1 with
  | nil => rfl
  | cons x r ih => cases x <;> simp [logOf, ih]

/-- `consoleOf` distributes over `flatMap`. -/
lemma consoleOf_flatMap {α : Type} (f : α → List Emit) (l : List α) :
    consoleOf (l.flatMap f) = l.flatMap fun x => consoleOf (f x) := by
  induction l with
  | nil => rfl
  | cons x r ih => simp [List.flatMap_cons, consoleOf_append, ih]

/-- `logOf` distributes over `flatMap`. -/
lemma logOf_flatMap {α : Type} (f : α → List Emit) (l : List α) :
    logOf (l.flatMap f) = l.flatMap fun x => logOf (f x) := by
  induction l with
  | nil => rfl
  | cons x r ih => simp [List.flatMap_cons, logOf_append, ih]

/-- A run consisting only of `print_log` events reaches both sinks
identically. -/
lemma console_eq_log_of_printLog (l : List Emit)
    (h : ∀ x ∈ l, ∃ s, x = Emit.printLog s) : consoleOf l = logOf l := by
  induction l with
  | nil => rfl
  | cons x r ih =>
    obtain ⟨s, rfl⟩ := h x (by simp)
    simp [consoleOf, logOf, ih fun y hy => h y (by simp [hy])]

/-- The four per-address lines of `network_info` all go through
`print_log`, so the log receives them exactly as the console does. -/
lemma address_lines_log_eq_console (name : String) (a : NetAddress) :
    logOf (address_lines name a) = consoleOf (address_lines name a) := by
  by_cases h1 : a.family = "AddressFamily.AF_INET"
  · simp [address_lines, h1, print_log, consoleOf, logOf]
  · by_cases h2 : a.family = "AddressFamily.AF_PACKET" <;>
      simp [address_lines, h1, h2, print_log, consoleOf, logOf]

/-- A framed per-partition header never equals its bare logged title: the
framing adds twelve characters to the length. -/
lemma partition_header_ne (d : String) :
    ("===== Информация о разделе диска: " ++ d ++ " =====") ≠
      "Информация о разделе диска: " ++ d := by
  intro h
  have hlen := congrArg String.length h
  rw [String.length_append, String.length_append, String.length_append] at hlen
  have e1 : ("===== Информация о разделе диска: ").length =
      ("Информация о разделе диска: ").length + 6 := by decide
  have e2 : (" =====").length = 6 := by decide
  omega

/-- A framed per-interface header never equals its bare logged title. -/
lemma interface_header_ne (name : String) :
    ("===== Информация о интерфейсе сети: " ++ name ++ " =====") ≠
      "Информация о интерфейсе сети: " ++ name := by
  intro h
  have hlen := congrArg String.length h
  rw [String.length_append, String.length_append, String.length_append] at hlen
  have e1 : ("===== Информация о интерфейсе сети: ").length =
      ("Информация о интерфейсе сети: ").length + 6 := by decide
  have e2 : (" =====").length = 6 := by decide
  omega

/-- Per-partition console/log streams of `disk_info`: whatever the usage
outcome, the header line is framed on the console and bare in the log,
the remaining lines agree, and the two streams differ. -/
lemma partition_emits_streams (e : Env) (p : Partition) :
    (consoleOf (partition_emits e p)).head? =
      some ("===== Информация о разделе диска: " ++ p.device ++ " =====") ∧
    (logOf (partition_emits e p)).head? =
      some ("Информация о разделе диска: " ++ p.device) ∧
    List.tail (consoleOf (partition_emits e p)) =
      List.tail (logOf (partition_emits e p)) ∧
    consoleOf (partition_emits e p) ≠ logOf (partition_emits e p) := by
  have hne := partition_header_ne p.device
  cases hu : e.disk_usage p.mountpoint with
  | ok u =>
    refine ⟨?_, ?_, ?_, ?_⟩ <;>
      simp [partition_emits, hu, print_log, consoleOf, logOf, hne]
  | permissionError =>
    refine ⟨?_, ?_, ?_, ?_⟩ <;>
      simp [partition_emits, hu, print_log, consoleOf, logOf, hne]

/-- C9 amended: every fact emitted through the single sink `print_log`
reaches console and log with identical text, but every section and
sub-section header of every domain method diverges: the console receives
the `=`-framed title (bare `print`), the log the bare title (bare
`logging.info`).  Stated per method: `system_info` and `proc_info` via
head/tail (one header each, shared bodies), `ram_info` by its two explicit
streams (main header and swap sub-header both diverge, all eight
`print_log` lines shared), `disk_info` and `network_info` by their
`flatMap` structure together with the per-partition and per-interface
sub-header divergence; each method's console stream is provably distinct
from its log stream. -/
theorem C9_single_sink_except_headers (m : ResourceMonitor) (e : Env) :
    (∀ text : String, consoleOf (print_log text) = logOf (print_log text)) ∧
    (consoleOf (system_info m)).head? = some "========== Информация о системе ==========" ∧
    (logOf (system_info m)).head? = some "Информация о системе" ∧
    List.tail (consoleOf (system_info m)) = List.tail (logOf (system_info m)) ∧
    consoleOf (system_info m) ≠ logOf (system_info m) ∧
    (consoleOf (proc_info m e).1).head? = some "========== Информация о процессоре ==========" ∧
    (logOf (proc_info m e).1).head? = some "Информация о процессоре" ∧
    List.tail (consoleOf (proc_info m e).1) = List.tail (logOf (proc_info m e).1) ∧
    consoleOf (proc_info m e).1 ≠ logOf (proc_info m e).1 ∧
    consoleOf (ram_info m) =
      "========== Информация об ОЗУ ==========" ::
        ("Объем ОЗУ: " ++ pyStr (get_size m.svmem.total)) ::
        ("Доступно ОЗУ: " ++ pyStr (get_size m.svmem.available)) ::
        ("Используется ОЗУ: " ++ pyStr (get_size m.svmem.used)) ::
        ("Процент ОЗУ: " ++ pyStr (get_size m.svmem.percent)) ::
        "===== Информация о памяти подкачки =====" ::
        ("Объем памяти подкачки: " ++ pyStr (get_size m.swap.total)) ::
        ("Свободно памяти подкачки: " ++ pyStr (get_size m.swap.free)) ::
        ("Используется памяти подкачки: " ++ pyStr (get_size m.swap.used)) ::
        ("Процент памяти подкачки: " ++ pyFloat m.swap.percent ++ "%") :: [] ∧
    logOf (ram_info m) =
      "Информация об ОЗУ" ::
        ("Объем ОЗУ: " ++ pyStr (get_size m.svmem.total)) ::
        ("Доступно ОЗУ: " ++ pyStr (get_size m.svmem.available)) ::
        ("Используется ОЗУ: " ++ pyStr (get_size m.svmem.used)) ::
        ("Процент ОЗУ: " ++ pyStr (get_size m.svmem.percent)) ::
        "Информация о памяти подкачки" ::
        ("Объем памяти подкачки: " ++ pyStr (get_size m.swap.total)) ::
        ("Свободно памяти подкачки: " ++ pyStr (get_size m.swap.free)) ::
        ("Используется памяти подкачки: " ++ pyStr (get_size m.swap.used)) ::
        ("Процент памяти подкачки: " ++ pyFloat m.swap.percent ++ "%") :: [] ∧
    consoleOf (ram_info m) ≠ logOf (ram_info m) ∧
    consoleOf (disk_info m e) =
      "========== Информация о дисках ==========" ::
        m.partitions.flatMap (fun p => consoleOf (partition_emits e p)) ∧
    logOf (disk_info m e) =
      "Информация о дисках" ::
        m.partitions.flatMap (fun p => logOf (partition_emits e p)) ∧
    consoleOf (disk_info m e) ≠ logOf (disk_info m e) ∧
    (∀ p : Partition,
      (consoleOf (partition_emits e p)).head? =
        some ("===== Информация о разделе диска: " ++ p.device ++ " =====") ∧
      (logOf (partition_emits e p)).head? =
        some ("Информация о разделе диска: " ++ p.device) ∧
      List.tail (consoleOf (partition_emits e p)) =
        List.tail (logOf (partition_emits e p)) ∧
      consoleOf (partition_emits e p) ≠ logOf (partition_emits e p)) ∧
    consoleOf (network_info m) =
      "========== Информация о сети ==========" ::
        (m.if_addrs.flatMap (fun pr => consoleOf (interface_section pr.1 pr.2)) ++
         ["Общее количество отправленных байтов: " ++ pyStr (get_size m.net_io.bytes_sent),
          "Общее количество полученных байтов: " ++ pyStr (get_size m.net_io.bytes_recv)]) ∧
    logOf (network_info m) =
      "Информация о сети" ::
        (m.if_addrs.flatMap (fun pr => logOf (interface_section pr.1 pr.2)) ++
         ["Общее количество отправленных байтов: " ++ pyStr (get_size m.net_io.bytes_sent),
          "Общее количество полученных байтов: " ++ pyStr (get_size m.net_io.bytes_recv)]) ∧
    consoleOf (network_info m) ≠ logOf (network_info m) ∧
    (∀ (name : String) (addrs : List NetAddress),
      consoleOf (interface_section name addrs) =
        addrs.flatMap (fun a =>
          ("===== Информация о интерфейсе сети: " ++ name ++ " =====") ::
            consoleOf (address_lines name a)) ∧
      logOf (interface_section name addrs) =
        addrs.flatMap (fun a =>
          ("Информация о интерфейсе сети: " ++ name) ::
            consoleOf (address_lines name a)) ∧
      ("===== Информация о интерфейсе сети: " ++ name ++ " =====") ≠
        "Информация о интерфейсе сети: " ++ name) := by
  have hpl : ∀ text : String, consoleOf (print_log text) = logOf (print_log text) :=
    fun _ => rfl
  have hsc : (consoleOf (system_info m)).head? =
      some "========== Информация о системе ==========" := by
    simp [system_info, print_log, consoleOf]
  have hsl : (logOf (system_info m)).head? = some "Информация о системе" := by
    simp [system_info, print_log, logOf]
  have hst : List.tail (consoleOf (system_info m)) = List.tail (logOf (system_info m)) := by
    simp [system_info, print_log, consoleOf, logOf]
  have hsn : consoleOf (system_info m) ≠ logOf (system_info m) := by
    intro h
    rw [h, hsl] at hsc
    exact absurd (Option.some.inj hsc) (by decide)
  have hpc : (consoleOf (proc_info m e).1).head? =
      some "========== Информация о процессоре ==========" := by
    cases hm : m.cpufreq <;>
      simp [proc_info, hm, print_log, consoleOf, consoleOf_append]
  have hpg : (logOf (proc_info m e).1).head? = some "Информация о процессоре" := by
    cases hm : m.cpufreq <;>
      simp [proc_info, hm, print_log, logOf, logOf_append]
  have hpercpu : consoleOf (percpu_lines e.cpu_percent_percpu) =
      logOf (percpu_lines e.cpu_percent_percpu) := by
    apply console_eq_log_of_printLog
    intro x hx
    simp only [percpu_lines] at hx
    obtain ⟨ip, _, rfl⟩ := List.mem_map.mp hx
    exact ⟨_, rfl⟩
  have hpt : List.tail (consoleOf (proc_info m e).1) =
      List.tail (logOf (proc_info m e).1) := by
    cases hm : m.cpufreq <;>
      simp [proc_info, hm, print_log, consoleOf, logOf, consoleOf_append, logOf_append,
        hpercpu]
  have hpn : consoleOf (proc_info m e).1 ≠ logOf (proc_info m e).1 := by
    intro h
    rw [h, hpg] at hpc
    exact absurd (Option.some.inj hpc) (by decide)
  have hrc : consoleOf (ram_info m) =
      "========== Информация об ОЗУ ==========" ::
        ("Объем ОЗУ: " ++ pyStr (get_size m.svmem.total)) ::
        ("Доступно ОЗУ: " ++ pyStr (get_size m.svmem.available)) ::
        ("Используется ОЗУ: " ++ pyStr (get_size m.svmem.used)) ::
        ("Процент ОЗУ: " ++ pyStr (get_size m.svmem.percent)) ::
        "===== Информация о памяти подкачки =====" ::
        ("Объем памяти подкачки: " ++ pyStr (get_size m.swap.total)) ::
        ("Свободно памяти подкачки: " ++ pyStr (get_size m.swap.free)) ::
        ("Используется памяти подкачки: " ++ pyStr (get_size m.swap.used)) ::
        ("Процент памяти подкачки: " ++ pyFloat m.swap.percent ++ "%") :: [] := by
    simp [ram_info, swap_truthy, print_log, consoleOf, consoleOf_append]
  have hrl : logOf (ram_info m) =
      "Информация об ОЗУ" ::
        ("Объем ОЗУ: " ++ pyStr (get_size m.svmem.total)) ::
        ("Доступно ОЗУ: " ++ pyStr (get_size m.svmem.available)) ::
        ("Используется ОЗУ: " ++ pyStr (get_size m.svmem.used)) ::
        ("Процент ОЗУ: " ++ pyStr (get_size m.svmem.percent)) ::
        "Информация о памяти подкачки" ::
        ("Объем памяти подкачки: " ++ pyStr (get_size m.swap.total)) ::
        ("Свободно памяти подкачки: " ++ pyStr (get_size m.swap.free)) ::
        ("Используется памяти подкачки: " ++ pyStr (get_size m.swap.used)) ::
        ("Процент памяти подкачки: " ++ pyFloat m.swap.percent ++ "%") :: [] := by
    simp [ram_info, swap_truthy, print_log, logOf, logOf_append]
  have hrn : consoleOf (ram_info m) ≠ logOf (ram_info m) := by
    rw [hrc, hrl]
    intro h
    exact absurd (List.cons_eq_cons.mp h).1 (by decide)
  have hdc : consoleOf (disk_info m e) =
      "========== Информация о дисках ==========" ::
        m.partitions.flatMap (fun p => consoleOf (partition_emits e p)) := by
    simp [disk_info, print_log, consoleOf, consoleOf_append, consoleOf_flatMap]
  have hdl : logOf (disk_info m e) =
      "Информация о дисках" ::
        m.partitions.flatMap (fun p => logOf (partition_emits e p)) := by
    simp [disk_info, print_log, logOf, logOf_append, logOf_flatMap]
  have hdn : consoleOf (disk_info m e) ≠ logOf (disk_info m e) := by
    rw [hdc, hdl]
    intro h
    exact absurd (List.cons_eq_cons.mp h).1 (by decide)
  have hnc : consoleOf (network_info m) =
      "========== Информация о сети ==========" ::
        (m.if_addrs.flatMap (fun pr => consoleOf (interface_section pr.1 pr.2)) ++
         ["Общее количество отправленных байтов: " ++ pyStr (get_size m.net_io.bytes_sent),
          "Общее количество полученных байтов: " ++ pyStr (get_size m.net_io.bytes_recv)]) := by
    simp [network_info, print_log, consoleOf, consoleOf_append, consoleOf_flatMap]
  have hnl : logOf (network_info m) =
      "Информация о сети" ::
        (m.if_addrs.flatMap (fun pr => logOf (interface_section pr.1 pr.2)) ++
         ["Общее количество отправленных байтов: " ++ pyStr (get_size m.net_io.bytes_sent),
          "Общее количество полученных байтов: " ++ pyStr (get_size m.net_io.bytes_recv)]) := by
    simp [network_info, print_log, logOf, logOf_append, logOf_flatMap]
  have hnn : consoleOf (network_info m) ≠ logOf (network_info m) := by
    rw [hnc, hnl]
    intro h
    exact absurd (List.cons_eq_cons.mp h).1 (by decide)
  have hiface : ∀ (name : String) (addrs : List NetAddress),
      consoleOf (interface_section name addrs) =
        addrs.flatMap (fun a =>
          ("===== Информация о интерфейсе сети: " ++ name ++ " =====") ::
            consoleOf (address_lines name a)) ∧
      logOf (interface_section name addrs) =
        addrs.flatMap (fun a =>
          ("Информация о интерфейсе сети: " ++ name) ::
            consoleOf (address_lines name a)) ∧
      ("===== Информация о интерфейсе сети: " ++ name ++ " =====") ≠
        "Информация о интерфейсе сети: " ++ name := by
    intro name addrs
    refine ⟨?_, ?_, interface_header_ne name⟩
    · simp [interface_section, consoleOf_flatMap, consoleOf_append, consoleOf, print_log]
    · simp [interface_section, logOf_flatMap, logOf_append, logOf, print_log,
        address_lines_log_eq_console]
  exact ⟨hpl, hsc, hsl, hst, hsn, hpc, hpg, hpt, hpn, hrc, hrl, hrn, hdc, hdl, hdn,
    partition_emits_streams e, hnc, hnl, hnn, hiface⟩

/-- The branch of `address_lines` never emits a bare `logging.info` event:
all four of its lines go through `print_log`. -/
lemma address_lines_count_log (name s : String) (address : NetAddress) :
    List.count (Emit.log s) (address_lines name address) = 0 := by
  by_cases h1 : address.family = "AddressFamily.AF_INET"
  · simp [address_lines, h1, print_log, List.count_cons]
  · by_cases h2 : address.family = "AddressFamily.AF_PACKET" <;>
      simp [address_lines, h1, h2, print_log, List.count_cons]

/-- The branch of `address_lines` never emits a bare `print` event
either. -/
lemma address_lines_count_print (name s : String) (address : NetAddress) :
    List.count (Emit.print s) (address_lines name address) = 0 := by
  by_cases h1 : address.family = "AddressFamily.AF_INET"
  · simp [address_lines, h1, print_log, List.count_cons]
  · by_cases h2 : address.family = "AddressFamily.AF_PACKET" <;>
      simp [address_lines, h1, h2, print_log, List.count_cons]

/-- C10: confirmed.  The per-interface header sits inside the inner
per-address loop, so for an interface with n addresses the header is
emitted exactly n times to each sink — once per address, not once per
interface. -/
theorem C10_header_once_per_address (name : String) (addrs : List NetAddress) :
    List.count (Emit.log ("Информация о интерфейсе сети: " ++ name))
      (interface_section name addrs) = addrs.length ∧
    List.count (Emit.print ("===== Информация о интерфейсе сети: " ++ name ++ " ====="))
      (interface_section name addrs) = addrs.length := by
  induction addrs with
  | nil => simp [interface_section]
  | cons a rest ih =>
    have hl := address_lines_count_log name ("Информация о интерфейсе сети: " ++ name) a
    have hp := address_lines_count_print name
      ("===== Информация о интерфейсе сети: " ++ name ++ " =====") a
    obtain ⟨ih1, ih2⟩ := ih
    constructor
    · simp only [interface_section, List.flatMap_cons, List.count_append] at ih1 ⊢
      rw [ih1, hl]
      simp [List.count_cons] <;> omega
    · simp only [interface_section, List.flatMap_cons, List.count_append] at ih2 ⊢
      rw [ih2, hp]
      simp [List.count_cons] <;> omega
